import Mathlib

/-!
Verification development for the diskwatcher catalog core.

This file gives a shallow embedding, in Lean, of the parts of the
diskwatcher repository that the checked properties talk about:

* `src/diskwatcher/db/events.py` — `log_event` and its derived-metadata
  helpers (`_update_volume_metadata`, `_maybe_refresh_volume_usage`,
  `_maybe_persist_volume_identity`, `_update_file_metadata`);
* `src/diskwatcher/db/jobs.py` — `create_job` / `update_job` /
  `complete_job` / `fail_job` / `touch_job`;
* `src/diskwatcher/utils/devices.py` — `_build_volume_identifier` and
  `_fallback_mount_info`;
* `src/diskwatcher/core/watcher.py` — the backend-selection logic of
  `DiskWatcher.start`, together with the CLI's polling-interval clamp.

Modelling conventions:

* ISO-8601 timestamps are modelled as `Int` seconds of the parsed UTC
  datetime; the code only ever compares parsed datetimes and copies the
  original strings around, so only the ordered value matters.
* SQLite tables are modelled as Lean structures: the append-only `events`
  table is a list in insertion (rowid) order, and the keyed `volumes` /
  `files` / `jobs` tables are functions from their primary key to
  `Option row`.
* Machine effects (stat, disk usage, pid liveness) are supplied by an
  explicit environment record.
* Python truthiness on optional strings (where both `None` and `""` are
  falsy) is made explicit via `truthyOpt` / `pyOr`.
-/

namespace Diskwatcher

/-- Python truthiness of an optional string: `None` and `""` are falsy.
Returns the value itself when it is truthy, `none` otherwise. -/
def truthyOpt : Option String → Option String
  | some s => if s.isEmpty then none else some s
  | none => none

/-- Python `a or b` where `a` is an optional string and `b` a string:
yields `b` when `a` is `None` or empty. -/
def pyOr (a : Option String) (b : String) : String :=
  match truthyOpt a with
  | some s => s
  | none => b

/-- The `UPDATE ... SET col = v` semantics for one optional column: an update
entry `some v` overwrites, no entry leaves the stored value. -/
def updCol (entry : Option String) (stored : Option String) : Option String :=
  match entry with
  | some v => some v
  | none => stored

/-- One row of the `events` table (`log_event`'s INSERT in events.py).
`process_id` is nullable in the schema. -/
structure EventRow where
  timestamp : Int
  event_type : String
  path : String
  directory : String
  volume_id : String
  process_id : Option String
deriving Repr, DecidableEq

/-- One row of the `volumes` table (schema in migration 0001/0002/0003).
Field defaults mirror the SQL column defaults; absent (NULL) columns are
`none`. -/
structure VolumeRow where
  directory : String
  event_count : Nat := 0
  created_count : Nat := 0
  modified_count : Nat := 0
  deleted_count : Nat := 0
  last_event_timestamp : Option Int := none
  usage_total_bytes : Option Nat := none
  usage_used_bytes : Option Nat := none
  usage_free_bytes : Option Nat := none
  usage_refreshed_at : Option Int := none
  events_since_refresh : Nat := 0
  mount_device : Option String := none
  mount_point : Option String := none
  mount_uuid : Option String := none
  mount_label : Option String := none
  mount_volume_id : Option String := none
  lsblk_name : Option String := none
  lsblk_path : Option String := none
  lsblk_model : Option String := none
  lsblk_serial : Option String := none
  lsblk_vendor : Option String := none
  lsblk_size : Option String := none
  lsblk_fsver : Option String := none
  lsblk_pttype : Option String := none
  lsblk_ptuuid : Option String := none
  lsblk_parttype : Option String := none
  lsblk_partuuid : Option String := none
  lsblk_parttypename : Option String := none
  lsblk_wwn : Option String := none
  lsblk_maj_min : Option String := none
  lsblk_json : Option String := none
  identity_refreshed_at : Option Int := none
deriving Repr, DecidableEq

/-- One row of the `files` table, keyed externally by (volume_id, path).
`is_deleted` is the SQL integer flag (0 or 1). -/
structure FileRow where
  directory : String
  size_bytes : Option Nat
  modified_time : Option Int
  created_time : Option Int
  last_event_timestamp : Option Int
  last_event_type : Option String
  is_deleted : Nat
deriving Repr, DecidableEq

/-- The catalog database state: the `events` table in rowid order, and the
keyed `volumes` and `files` tables as partial maps. -/
structure Catalog where
  events : List EventRow
  volumes : String → Option VolumeRow
  files : String × String → Option FileRow

def emptyCatalog : Catalog :=
  { events := [], volumes := fun _ => none, files := fun _ => none }

def setVolume (cat : Catalog) (volume_id : String) (row : VolumeRow) : Catalog :=
  { cat with volumes := fun v => if v = volume_id then some row else cat.volumes v }

/-- The `files` table as a map. -/
def FileTable : Type := String × String → Option FileRow

def setFileKey (files : FileTable) (volume_id path : String) (row : FileRow) :
    FileTable :=
  fun k => if k = (volume_id, path) then some row else files k

def setFile (cat : Catalog) (volume_id path : String) (row : FileRow) : Catalog :=
  { cat with files := setFileKey cat.files volume_id path row }

/-- Outcome of `Path.stat()` + `Path.is_file()` on a path: the stat result
with a regular-file flag, a `FileNotFoundError`, or any other OS error
(both error cases make `_update_file_metadata` return early). -/
inductive StatOutcome where
  | found (size : Nat) (mtime : Int) (ctime : Int) (isRegularFile : Bool)
  | missing
  | failed
deriving Repr, DecidableEq

/-- Result of `shutil.disk_usage`. -/
structure DiskUsage where
  total : Nat
  used : Nat
  free : Nat
deriving Repr, DecidableEq

/-- Host environment for the catalog layer: `stat` models
`Path.stat()`/`Path.is_file()` and `disk_usage` models
`shutil.disk_usage` (`none` when it raises). -/
structure Env where
  stat : String → StatOutcome
  disk_usage : String → Option DiskUsage

/-- Constant `_VOLUME_USAGE_REFRESH_SECONDS` in events.py. -/
def VOLUME_USAGE_REFRESH_SECONDS : Int := 300

/-- Constant `_VOLUME_USAGE_REFRESH_EVENT_THRESHOLD` in events.py. -/
def VOLUME_USAGE_REFRESH_EVENT_THRESHOLD : Nat := 100

/-- Constant `_FILE_IGNORE_SUFFIXES` in events.py. -/
def FILE_IGNORE_SUFFIXES : List String := [".lock", ".tmp", ".swp", ".swx", "~"]

/-- Constant `_FILE_IGNORE_NAMES` in events.py. -/
def FILE_IGNORE_NAMES : List String := [".DS_Store", "Thumbs.db"]

/-- Split a character list on '/' separators (the building block for
`Path(path).name`, written over the character list so that it is
kernel-computable). -/
def splitSlashAux : List Char → List Char → List (List Char)
  | [], acc => [acc.reverse]
  | c :: cs, acc =>
      if c = '/' then acc.reverse :: splitSlashAux cs []
      else splitSlashAux cs (c :: acc)

/-- The value `Path(path).name`: the final path component. Paths are assumed to be
in normalized form (absolute, no trailing slash), as produced by the
watcher which feeds `log_event`. -/
def pathName (p : String) : String :=
  ⟨(splitSlashAux p.data []).getLastD p.data⟩

/-- The deny-set test at the top of `_update_file_metadata`: basename in
`_FILE_IGNORE_NAMES` or ending in one of `_FILE_IGNORE_SUFFIXES` (suffix
matching over the character lists, which is what `str.endswith` does on
these ASCII constants). -/
def fileIgnored (p : String) : Bool :=
  let name := pathName p
  FILE_IGNORE_NAMES.contains name
    || FILE_IGNORE_SUFFIXES.any (fun suffix => suffix.data.isSuffixOf name.data)

/-- The mount-metadata dict passed down from the watcher: the keys that
`_maybe_persist_volume_identity` reads. `lsblk` is the nested lsblk dict
(an association list with unique keys; values may be `None`). A value of
`some md` for an `Option MountMetadata` argument models a truthy
(non-`None`, non-empty) Python dict. -/
structure MountMetadata where
  device : Option String := none
  mount_point : Option String := none
  uuid : Option String := none
  label : Option String := none
  volume_id : Option String := none
  lsblk : Option (List (String × Option String)) := none
deriving Repr, DecidableEq

/-- Lookup `payload.get(key)` on the lsblk dict: `None` both for an absent key
and for a stored `None` value. -/
def payloadGet (payload : List (String × Option String)) (key : String) : Option String :=
  match payload.find? (fun kv => kv.1 = key) with
  | some kv => kv.2
  | none => none

/-- Insertion of a string into a sorted list (ascending). -/
def insertSorted (s : String) : List String → List String
  | [] => [s]
  | t :: ts => if s ≤ t then s :: t :: ts else t :: insertSorted s ts

/-- Ascending insertion sort on strings. -/
def sortStrings : List String → List String
  | [] => []
  | s :: ss => insertSorted s (sortStrings ss)

/-- Canonical serialization of the lsblk payload: abstracts
`json.dumps(lsblk_payload, sort_keys=True)` — a deterministic rendering
of the key/value pairs in sorted key order (`None` renders as `null`). -/
def canonicalSerialize (payload : List (String × Option String)) : String :=
  String.intercalate ","
    (sortStrings (payload.map (fun kv => kv.1 ++ "=" ++ kv.2.getD "null")))

/-- Function `_maybe_refresh_volume_usage` (events.py lines 238–295): decide
whether to recompute the capacity snapshot for `volume_id` and, when the
`shutil.disk_usage` read succeeds, overwrite the usage columns, stamp
`usage_refreshed_at` with the event timestamp and reset
`events_since_refresh`; a failed read leaves the row untouched.

`shouldRefreshUsage` is the `should_refresh` computation at the top of
that function: refresh when there is no prior `usage_refreshed_at`, when
at least `_VOLUME_USAGE_REFRESH_SECONDS` elapsed between it and the
event's timestamp, or when `events_since_refresh` (already incremented
for this event) has reached `_VOLUME_USAGE_REFRESH_EVENT_THRESHOLD`. -/
def shouldRefreshUsage (row : VolumeRow) (event_timestamp : Int) : Bool :=
  let elapsed_refresh : Bool :=
    match row.usage_refreshed_at with
    | none => true
    | some last_refresh =>
        decide (event_timestamp - last_refresh ≥ VOLUME_USAGE_REFRESH_SECONDS)
  elapsed_refresh
    || decide (row.events_since_refresh ≥ VOLUME_USAGE_REFRESH_EVENT_THRESHOLD)

/-- The row produced by the capacity-refresh UPDATE. -/
def refreshedUsageRow (row : VolumeRow) (usage : DiskUsage)
    (event_timestamp : Int) : VolumeRow :=
  { row with
    usage_total_bytes := some usage.total
    usage_used_bytes := some usage.used
    usage_free_bytes := some usage.free
    usage_refreshed_at := some event_timestamp
    events_since_refresh := 0 }

def _maybe_refresh_volume_usage (env : Env) (cat : Catalog)
    (volume_id directory : String) (event_timestamp : Int) : Catalog :=
  match cat.volumes volume_id with
  | none => cat
  | some row =>
    if !shouldRefreshUsage row event_timestamp then cat
    else
      match env.disk_usage directory with
      | none => cat
      | some usage =>
          setVolume cat volume_id (refreshedUsageRow row usage event_timestamp)

/-- The `vol_hint` entry of the `updates` dict: the metadata's
`volume_id` when truthy and different from the row's volume id. -/
def volHintFor (md : MountMetadata) (volume_id : String) : Option String :=
  match truthyOpt md.volume_id with
  | some hint => if hint ≠ volume_id then some hint else none
  | none => none

/-- Non-emptiness of the `updates` dict built by
`_maybe_persist_volume_identity` before `identity_refreshed_at` is added:
some entry among device / mount_point (with its directory fallback) /
uuid / label / volume-id hint is present, or the lsblk payload is a
non-empty dict (which contributes `lsblk_json`). -/
def identityAnyUpdate (md : MountMetadata) (volume_id directory : String) : Bool :=
  (truthyOpt md.device).isSome
    || (truthyOpt (some (pyOr md.mount_point directory))).isSome
    || (truthyOpt md.uuid).isSome
    || (truthyOpt md.label).isSome
    || (volHintFor md volume_id).isSome
    || !(md.lsblk.getD []).isEmpty

/-- The row written by `_maybe_persist_volume_identity`'s UPDATE when the
`updates` dict is non-empty: each identity column is overwritten when the
dict carries an entry for it — the truthy members of the metadata, with
`mount_point` falling back to the event's directory via Python `or`,
`mount_volume_id` only when the hint differs from the volume id, the
canonical lsblk blob and the per-key lsblk columns when the payload is a
non-empty dict — plus `identity_refreshed_at = event_timestamp`. -/
def identityUpdatedRow (row : VolumeRow) (md : MountMetadata)
    (volume_id directory : String) (event_timestamp : Int) : VolumeRow :=
  let device := truthyOpt md.device
  let mount_point := truthyOpt (some (pyOr md.mount_point directory))
  let uuid := truthyOpt md.uuid
  let label := truthyOpt md.label
  let vol_hint := volHintFor md volume_id
  let payload := md.lsblk.getD []
  { row with
    mount_device := updCol device row.mount_device
    mount_point := updCol mount_point row.mount_point
    mount_uuid := updCol uuid row.mount_uuid
    mount_label := updCol label row.mount_label
    mount_volume_id := updCol vol_hint row.mount_volume_id
    lsblk_json :=
      if payload.isEmpty then row.lsblk_json
      else some (canonicalSerialize payload)
    lsblk_name := updCol (truthyOpt (payloadGet payload "NAME")) row.lsblk_name
    lsblk_path := updCol (truthyOpt (payloadGet payload "PATH")) row.lsblk_path
    lsblk_model := updCol (truthyOpt (payloadGet payload "MODEL")) row.lsblk_model
    lsblk_serial := updCol (truthyOpt (payloadGet payload "SERIAL")) row.lsblk_serial
    lsblk_vendor := updCol (truthyOpt (payloadGet payload "VENDOR")) row.lsblk_vendor
    lsblk_size := updCol (truthyOpt (payloadGet payload "SIZE")) row.lsblk_size
    lsblk_fsver := updCol (truthyOpt (payloadGet payload "FSVER")) row.lsblk_fsver
    lsblk_pttype := updCol (truthyOpt (payloadGet payload "PTTYPE")) row.lsblk_pttype
    lsblk_ptuuid := updCol (truthyOpt (payloadGet payload "PTUUID")) row.lsblk_ptuuid
    lsblk_parttype := updCol (truthyOpt (payloadGet payload "PARTTYPE")) row.lsblk_parttype
    lsblk_partuuid := updCol (truthyOpt (payloadGet payload "PARTUUID")) row.lsblk_partuuid
    lsblk_parttypename :=
      updCol (truthyOpt (payloadGet payload "PARTTYPENAME")) row.lsblk_parttypename
    lsblk_wwn := updCol (truthyOpt (payloadGet payload "WWN")) row.lsblk_wwn
    lsblk_maj_min := updCol (truthyOpt (payloadGet payload "MAJ:MIN")) row.lsblk_maj_min
    identity_refreshed_at := some event_timestamp }

/-- Function `_maybe_persist_volume_identity` (events.py lines 298–344): when the
`updates` dict is non-empty, apply `identityUpdatedRow` to the matching
Volume row in a single UPDATE; otherwise leave the catalog untouched. -/
def _maybe_persist_volume_identity (cat : Catalog)
    (volume_id directory : String) (event_timestamp : Int)
    (md : MountMetadata) : Catalog :=
  match cat.volumes volume_id with
  | none => cat
  | some row =>
    if !identityAnyUpdate md volume_id directory then cat
    else
      setVolume cat volume_id
        (identityUpdatedRow row md volume_id directory event_timestamp)

/-- Function `_update_volume_metadata` (events.py lines 190–235): upsert the
Volume row (creating it with schema defaults, otherwise overwriting only
`directory`), bump the event counters and `last_event_timestamp`, then
run the conditional capacity refresh and — for truthy mount metadata —
the identity persist. -/
def bumpedVolumeRow (prior : Option VolumeRow) (directory event_type : String)
    (event_timestamp : Int) : VolumeRow :=
  let created_delta : Nat := if event_type = "created" then 1 else 0
  let modified_delta : Nat := if event_type = "modified" then 1 else 0
  let deleted_delta : Nat := if event_type = "deleted" then 1 else 0
  let row0 : VolumeRow :=
    match prior with
    | none => { directory := directory }
    | some row => { row with directory := directory }
  { row0 with
    event_count := row0.event_count + 1
    created_count := row0.created_count + created_delta
    modified_count := row0.modified_count + modified_delta
    deleted_count := row0.deleted_count + deleted_delta
    last_event_timestamp := some event_timestamp
    events_since_refresh := row0.events_since_refresh + 1 }

def _update_volume_metadata (env : Env) (cat : Catalog)
    (volume_id directory event_type : String) (event_timestamp : Int)
    (mount_metadata : Option MountMetadata) : Catalog :=
  let cat1 :=
    setVolume cat volume_id
      (bumpedVolumeRow (cat.volumes volume_id) directory event_type event_timestamp)
  let cat2 := _maybe_refresh_volume_usage env cat1 volume_id directory event_timestamp
  match mount_metadata with
  | some md =>
      _maybe_persist_volume_identity cat2 volume_id directory event_timestamp md
  | none => cat2

/-- Function `_update_file_metadata` (events.py lines 346–427): skip deny-set
basenames; on `deleted`, tombstone an existing File row (null size and
mtime, set the flag, stamp the last-event columns); otherwise stat the
path, skip on failure or non-regular files, and upsert the row with
`created_time` COALESCEd to the previously stored value. -/
def fileTableAfterEvent (env : Env) (files : FileTable)
    (event_type path directory volume_id : String) (event_timestamp : Int) :
    FileTable :=
  if fileIgnored path then files
  else if event_type = "deleted" then
    match files (volume_id, path) with
    | none => files
    | some row =>
        setFileKey files volume_id path
          { row with
            is_deleted := 1
            size_bytes := none
            modified_time := none
            last_event_timestamp := some event_timestamp
            last_event_type := some event_type }
  else
    match env.stat path with
    | .missing => files
    | .failed => files
    | .found size mtime ctime isRegularFile =>
        if !isRegularFile then files
        else
          let excluded : FileRow :=
            { directory := directory
              size_bytes := some size
              modified_time := some mtime
              created_time := some ctime
              last_event_timestamp := some event_timestamp
              last_event_type := some event_type
              is_deleted := 0 }
          match files (volume_id, path) with
          | none => setFileKey files volume_id path excluded
          | some old =>
              setFileKey files volume_id path
                { excluded with
                  created_time :=
                    match old.created_time with
                    | some c => some c
                    | none => some ctime }

/-- The helper only issues statements against the `files` table, so the
catalog-level function is the map-level effect on that one table. -/
def _update_file_metadata (env : Env) (cat : Catalog)
    (event_type path directory volume_id : String) (event_timestamp : Int) : Catalog :=
  { cat with
    files :=
      fileTableAfterEvent env cat.files event_type path directory volume_id
        event_timestamp }

/-- Function `log_event` (events.py lines 26–64), fault-free path: insert the
Event row, then run the volume and file derivations (whose exceptions
the source catches and logs, so they cannot abort the call). -/
def log_event (env : Env) (cat : Catalog)
    (event_type path directory volume_id : String)
    (process_id : Option String) (timestamp : Int)
    (mount_metadata : Option MountMetadata) : Catalog :=
  let cat1 :=
    { cat with
      events := cat.events ++
        [{ timestamp := timestamp, event_type := event_type, path := path,
           directory := directory, volume_id := volume_id,
           process_id := process_id }] }
  let cat2 :=
    _update_volume_metadata env cat1 volume_id directory event_type timestamp
      mount_metadata
  _update_file_metadata env cat2 event_type path directory volume_id timestamp

/-- Fault injection for `log_event`: whether the Event INSERT itself
raises (after the lock-retry loop), and whether each derivation helper
raises. A raise inside a helper is modelled as the helper performing no
update, which is all the properties below depend on. -/
structure LogEventFaults where
  insertFails : Bool
  volumeFails : Bool
  fileFails : Bool
deriving Repr, DecidableEq

/-- A database error escaping `log_event` (e.g. `sqlite3.OperationalError`
after the retry loop is exhausted). -/
inductive DbError where
  | operationalError
deriving Repr, DecidableEq

/-- Function `log_event` with fault injection, mirroring its control flow: the
`with conn` block rolls the transaction back and propagates the error if
the Event INSERT raises; the two derivation calls sit in `try/except`
blocks whose handlers only log, so a derivation fault skips that
derivation and the call still returns normally with the Event committed. -/
def log_event_with_faults (env : Env) (faults : LogEventFaults) (cat : Catalog)
    (event_type path directory volume_id : String)
    (process_id : Option String) (timestamp : Int)
    (mount_metadata : Option MountMetadata) : Except DbError Catalog :=
  if faults.insertFails then .error .operationalError
  else
    let cat1 :=
      { cat with
        events := cat.events ++
          [{ timestamp := timestamp, event_type := event_type, path := path,
             directory := directory, volume_id := volume_id,
             process_id := process_id }] }
    let cat2 :=
      if faults.volumeFails then cat1
      else
        _update_volume_metadata env cat1 volume_id directory event_type timestamp
          mount_metadata
    let cat3 :=
      if faults.fileFails then cat2
      else _update_file_metadata env cat2 event_type path directory volume_id timestamp
    .ok cat3

/-- The arguments of one `log_event` call. -/
structure LogCall where
  event_type : String
  path : String
  directory : String
  volume_id : String
  process_id : Option String
  timestamp : Int
  mount_metadata : Option MountMetadata

/-- A sequence of `log_event` calls applied in order. -/
def applyCalls (env : Env) (cat : Catalog) : List LogCall → Catalog
  | [] => cat
  | c :: cs =>
      applyCalls env
        (log_event env cat c.event_type c.path c.directory c.volume_id
          c.process_id c.timestamp c.mount_metadata) cs

/-- Number of Event rows carrying the given volume id. -/
def eventCountFor (events : List EventRow) (volume_id : String) : Nat :=
  (events.filter (fun e => e.volume_id = volume_id)).length

/-- Number of Event rows carrying the given volume id and event type. -/
def kindCountFor (events : List EventRow) (volume_id event_type : String) : Nat :=
  (events.filter
    (fun e => e.volume_id = volume_id && e.event_type = event_type)).length

/-! ## Jobs (`src/diskwatcher/db/jobs.py`) -/

/-- One row of the `jobs` table. Timestamps are `Int` seconds as above;
`progress_json` and `error_message` keep their serialized string form. -/
structure JobRow where
  job_type : String
  path : Option String
  volume_id : Option String
  status : String
  progress_json : Option String
  owner_pid : Option String
  owner_host : Option String
  error_message : Option String := none
  started_at : Int
  updated_at : Int
  completed_at : Option Int := none
deriving Repr, DecidableEq

/-- The `jobs` table keyed by `job_id`. -/
def Jobs : Type := String → Option JobRow

def emptyJobs : Jobs := fun _ => none

def setJob (jobs : Jobs) (job_id : String) (row : JobRow) : Jobs :=
  fun j => if j = job_id then some row else jobs j

/-- Function `create_job` (jobs.py lines 35–74): INSERT a fresh row with
`started_at = updated_at = now` and a NULL `completed_at`. The 128-bit
`job_id` is generated by the caller's environment (`os.urandom`), so it
is a parameter here and is assumed fresh (the column is the primary
key). -/
def create_job (jobs : Jobs) (job_id job_type : String)
    (path volume_id : Option String) (status : String)
    (progress_json : Option String) (owner_pid owner_host : Option String)
    (now : Int) : Jobs :=
  setJob jobs job_id
    { job_type := job_type
      path := path
      volume_id := volume_id
      status := status
      progress_json := progress_json
      owner_pid := owner_pid
      owner_host := owner_host
      started_at := now
      updated_at := now }

/-- Function `update_job` (jobs.py lines 77–107): build the SET list — always
`updated_at`, plus each argument that is not `None`, plus `completed_at`
when `completed` is set — and apply it to the matching row. There is no
guard of any kind on the row's current status. -/
def update_job (jobs : Jobs) (job_id : String)
    (status : Option String) (progress_json : Option String)
    (error : Option String) (completed : Bool) (now : Int) : Jobs :=
  match jobs job_id with
  | none => jobs
  | some row =>
      setJob jobs job_id
        { row with
          updated_at := now
          status := match status with | some s => s | none => row.status
          progress_json :=
            match progress_json with | some p => some p | none => row.progress_json
          error_message :=
            match error with | some e => some e | none => row.error_message
          completed_at := if completed then some now else row.completed_at }

/-- Function `complete_job` (jobs.py lines 110–118): `update_job` with the given
status (default "complete") and `completed=True`. -/
def complete_job (jobs : Jobs) (job_id : String) (status : String)
    (progress_json : Option String) (now : Int) : Jobs :=
  update_job jobs job_id (some status) progress_json none true now

/-- Function `fail_job` (jobs.py lines 121–137): `update_job` with status
"failed", the error message, and `completed=True`. -/
def fail_job (jobs : Jobs) (job_id : String) (error : String)
    (progress_json : Option String) (now : Int) : Jobs :=
  update_job jobs job_id (some "failed") progress_json (some error) true now

/-- Function `touch_job` (jobs.py lines 140–147): `update_job` with only an
optional progress payload (a heartbeat). -/
def touch_job (jobs : Jobs) (job_id : String)
    (progress_json : Option String) (now : Int) : Jobs :=
  update_job jobs job_id none progress_json none false now

/-- The terminal status vocabulary of spec §4.3. -/
def terminalStatuses : List String :=
  ["complete", "failed", "interrupted", "cancelled", "removed", "stopped", "stale"]

/-- Host facts needed by the stale-job sweep: whether a recorded owner
pid names a live process, and the current host name. -/
structure JobEnv where
  pidAlive : Option String → Bool
  currentHost : String

/-- Modelled from the spec: `cleanup_stale_jobs` is imported by the CLI
(`from diskwatcher.db.jobs import cleanup_stale_jobs`, cli.py line 41)
but is absent from the provided `jobs.py`. Per spec §4.3 / S6: mark any
non-terminal job whose owner pid is not alive, or whose owner host
differs from the current host, as `stale` (a terminal status, hence with
`completed_at` stamped); all other jobs are left untouched. -/
def cleanup_stale_jobs (henv : JobEnv) (jobs : Jobs) (now : Int) : Jobs :=
  fun job_id =>
    match jobs job_id with
    | none => none
    | some row =>
        if !(terminalStatuses.contains row.status)
            && (!(henv.pidAlive row.owner_pid)
                || row.owner_host ≠ some henv.currentHost) then
          some { row with status := "stale", completed_at := some now, updated_at := now }
        else some row

/-! ## Mount probe (`src/diskwatcher/utils/devices.py`) -/

/-- Constant `IDENTIFIER_COMPONENTS` in devices.py, in priority order. -/
def IDENTIFIER_COMPONENTS : List String :=
  ["UUID", "PARTUUID", "PTUUID", "WWN", "SERIAL", "MODEL", "VENDOR", "FSVER"]

/-- The `fields` dict handed to `_build_volume_identifier`: lsblk keys to
normalized values (blank values already normalized to `None` by
`get_mount_info`). -/
def fieldsGet (fields : List (String × Option String)) (key : String) : Option String :=
  payloadGet fields key

/-- The `components` list built by `_build_volume_identifier`: one
lower-cased `key=value` entry per truthy identifier component, in
priority order. -/
def identifierComponents (fields : List (String × Option String)) : List String :=
  IDENTIFIER_COMPONENTS.filterMap
    (fun key =>
      match truthyOpt (fieldsGet fields key) with
      | some value => some (key.toLower ++ "=" ++ value)
      | none => none)

/-- Function `_build_volume_identifier` (devices.py lines 82–103): pipe-join the
identifier components; otherwise fall through PATH, NAME, `MAJ:MIN`, and
finally the supplied fallback. -/
def _build_volume_identifier (fields : List (String × Option String))
    (fallback : String) : String :=
  let components := identifierComponents fields
  if !components.isEmpty then String.intercalate "|" components
  else
    match truthyOpt (fieldsGet fields "PATH") with
    | some value => value
    | none =>
      match truthyOpt (fieldsGet fields "NAME") with
      | some value => value
      | none =>
        match truthyOpt (fieldsGet fields "MAJ:MIN") with
        | some maj_min => "maj:min=" ++ maj_min
        | none => fallback

/-- The dict returned by the mount probe (`get_mount_info` /
`_fallback_mount_info`). -/
structure MountInfo where
  directory : String
  mount_point : String
  device : String
  volume_id : String
  uuid : Option String
  label : Option String
  lsblk : Option (List (String × Option String))
deriving Repr, DecidableEq

/-- Function `_fallback_mount_info` (devices.py lines 67–79). The resolved path
string and its `Path.anchor` / `Path.root` attributes are parameters
(they are OS path-semantics lookups): `anchor = resolved.anchor or
str(resolved.root)`, `fallback_device = anchor or str(resolved)`. -/
def _fallback_mount_info (resolved anchorAttr rootAttr : String) : MountInfo :=
  let anchor := pyOr (some anchorAttr) rootAttr
  let fallback_device := pyOr (some anchor) resolved
  { directory := resolved
    mount_point := pyOr (some anchor) resolved
    device := fallback_device
    volume_id := fallback_device
    uuid := none
    label := none
    lsblk := none }

/-- The fallback dispatch of `get_mount_info` (devices.py lines 106–125):
return `_fallback_mount_info` on non-Linux hosts and when either
`findmnt` invocation raises (`RuntimeError` from a missing binary,
timeout, or failure); otherwise continue with the Linux probe, whose
result is the `linuxResult` parameter here. -/
def get_mount_info_dispatch (isLinux findmntFails : Bool)
    (linuxResult : MountInfo) (resolved anchorAttr rootAttr : String) : MountInfo :=
  if !isLinux then _fallback_mount_info resolved anchorAttr rootAttr
  else if findmntFails then _fallback_mount_info resolved anchorAttr rootAttr
  else linuxResult

/-! ## Watcher backend selection (`src/diskwatcher/core/watcher.py`) -/

/-- Value of `errno.ENOSPC`. -/
def ENOSPC : Nat := 28

/-- Outcome of constructing/scheduling/starting the primary watchdog
`Observer` in `DiskWatcher.start`: success, or an `OSError` with the
given errno. -/
inductive ObserverOutcome where
  | ok
  | oserror (errno : Nat)
deriving Repr, DecidableEq

/-- What `DiskWatcher.start` has set up once an observer is running: the
backend name (as carried in the structured `watcher_started` log record's
`backend` field), the polling timeout (for the polling backend), and the
fact that `self` — the event handler whose callbacks append events via
`log_event` — is scheduled on the observer. -/
structure BackendSelection where
  backend : String
  pollingTimeout : Option Int
  handlerScheduled : Bool
  logBackendField : String
deriving Repr, DecidableEq

/-- The polling timeout picked in the fallback branch of
`DiskWatcher.start` (line 183): the configured interval when it is
truthy and positive, else 30.0 seconds. `polling_interval` is the
constructor argument (`None` when unconfigured). -/
def pollingTimeoutFor (polling_interval : Option Int) : Int :=
  match polling_interval with
  | some p => if p ≠ 0 && p > 0 then p else 30
  | none => 30

/-- The backend-selection logic of `DiskWatcher.start` (watcher.py lines
146–212): on success use the inotify observer; on an `OSError` with
errno ENOSPC fall back to a `PollingObserver` with `pollingTimeoutFor`
and log `backend=polling`; re-raise any other `OSError`. -/
def diskwatcher_start_backend (outcome : ObserverOutcome)
    (polling_interval : Option Int) : Except Nat BackendSelection :=
  match outcome with
  | .ok =>
      .ok { backend := "inotify", pollingTimeout := none,
            handlerScheduled := true, logBackendField := "inotify" }
  | .oserror errno =>
      if errno = ENOSPC then
        .ok { backend := "polling",
              pollingTimeout := some (pollingTimeoutFor polling_interval),
              handlerScheduled := true, logBackendField := "polling" }
      else .error errno

/-- The CLI's polling-interval validation (cli.py lines 563–568): the
effective interval is the command-line value, else the config value; a
present value below 1 second is rejected with a usage error. -/
def effectivePollingInterval (cli_value config_value : Option Int) :
    Except Unit (Option Int) :=
  let effective := match cli_value with | some v => some v | none => config_value
  match effective with
  | some v => if v < 1 then .error () else .ok (some v)
  | none => .ok none

/-! ## Derived notions used by the statements -/

/-- The counter bookkeeping carried by a Volume row, as related by the
derivation helpers that do not touch it. -/
def countersAgree (a b : VolumeRow) : Prop :=
  b.directory = a.directory ∧ b.event_count = a.event_count ∧
  b.created_count = a.created_count ∧ b.modified_count = a.modified_count ∧
  b.deleted_count = a.deleted_count

/-- Event conservation (spec §8.1): every Volume row's counters equal the
corresponding Event-row counts, and absent rows have no events. -/
def volumeCountInvariant (cat : Catalog) : Prop :=
  ∀ v, (cat.volumes v = none → eventCountFor cat.events v = 0) ∧
    ∀ row, cat.volumes v = some row →
      row.event_count = eventCountFor cat.events v ∧
      row.created_count = kindCountFor cat.events v "created" ∧
      row.modified_count = kindCountFor cat.events v "modified" ∧
      row.deleted_count = kindCountFor cat.events v "deleted"

/-- The directory argument of the most recent call in the sequence that
carries the given volume id. -/
def lastDirFor (calls : List LogCall) (volume_id : String) : Option String :=
  calls.foldl
    (fun acc c => if c.volume_id = volume_id then some c.directory else acc) none

/-- The lsblk keys of `_LSBLK_COLUMN_MAP` (events.py lines 451–466), in
iteration order. -/
def LSBLK_KEYS : List String :=
  ["NAME", "PATH", "MODEL", "SERIAL", "VENDOR", "SIZE", "FSVER", "PTTYPE",
   "PTUUID", "PARTTYPE", "PARTUUID", "PARTTYPENAME", "WWN", "MAJ:MIN"]

/-- The Volume column holding the given lsblk key's value (the column
side of `_LSBLK_COLUMN_MAP`). -/
def lsblkColumn (row : VolumeRow) : String → Option String
  | "NAME" => row.lsblk_name
  | "PATH" => row.lsblk_path
  | "MODEL" => row.lsblk_model
  | "SERIAL" => row.lsblk_serial
  | "VENDOR" => row.lsblk_vendor
  | "SIZE" => row.lsblk_size
  | "FSVER" => row.lsblk_fsver
  | "PTTYPE" => row.lsblk_pttype
  | "PTUUID" => row.lsblk_ptuuid
  | "PARTTYPE" => row.lsblk_parttype
  | "PARTUUID" => row.lsblk_partuuid
  | "PARTTYPENAME" => row.lsblk_parttypename
  | "WWN" => row.lsblk_wwn
  | "MAJ:MIN" => row.lsblk_maj_min
  | _ => none

/-! ## Concrete fixtures for witnesses and counterexamples -/

/-- Fixture: a host on which `/d/a.txt` stats as a 2-byte regular file
and disk usage is unreadable. -/
def envF : Env :=
  { stat := fun p => if p = "/d/a.txt" then .found 2 10 5 true else .missing,
    disk_usage := fun _ => none }

/-- Fixture: a host with readable disk usage and no stat-able paths. -/
def envU : Env :=
  { stat := fun _ => .missing,
    disk_usage := fun _ => some { total := 100, used := 60, free := 40 } }

/-- Fixture: a Volume row whose `mount_point` identity column is already
populated. -/
def rowV : VolumeRow := { directory := "/mnt/x", mount_point := some "/old" }

/-- Fixture: a catalog holding `rowV` under volume id "v". -/
def catV : Catalog := setVolume emptyCatalog "v" rowV

/-- Fixture: mount metadata carrying only a device node (no
`mount_point` key). -/
def mdDeviceOnly : MountMetadata := { device := some "d" }

/-- Fixture: mount metadata carrying a device node and a UUID. -/
def mdDU : MountMetadata := { device := some "d", uuid := some "U1" }

/-- Fixture: job-environment in which only pid "1" is alive and the
current host is "h". -/
def henvF : JobEnv := { pidAlive := fun p => p = some "1", currentHost := "h" }

/-- Fixture: the row created for job "j": queued watcher owned by live
pid "1" on host "h". -/
def rowJ : JobRow :=
  { job_type := "watcher"
    path := none
    volume_id := none
    status := "queued"
    progress_json := none
    owner_pid := some "1"
    owner_host := some "h"
    started_at := 0
    updated_at := 0 }

/-- Fixture: a `running` watcher row owned by dead pid "99". -/
def rowB : JobRow := { rowJ with status := "running", owner_pid := some "99" }

/-- Fixture: a freshly created `watcher` job "j" owned by live pid "1". -/
def jobsA : Jobs :=
  create_job emptyJobs "j" "watcher" none none "queued" none (some "1") (some "h") 0

/-- Fixture: a `running` watcher job "a" owned by dead pid "99". -/
def jobsB : Jobs :=
  create_job emptyJobs "a" "watcher" none none "running" none (some "99") (some "h") 0

/-- Fixture: the fault configuration in which only the volume-derivation
helper raises. -/
def faultsVol : LogEventFaults :=
  { insertFails := false, volumeFails := true, fileFails := false }

/-- Fixture: the fault-free configuration. -/
def faultsNone : LogEventFaults :=
  { insertFails := false, volumeFails := false, fileFails := false }

/-- Fixture: a File row for `/d/a.txt` as first cataloged. -/
def rowF0 : FileRow :=
  { directory := "/d", size_bytes := some 2, modified_time := some 10,
    created_time := some 5, last_event_timestamp := some 0,
    last_event_type := some "created", is_deleted := 0 }

/-- Fixture: a catalog holding the File row `rowF0` for ("v", "/d/a.txt"). -/
def catF : Catalog := setFile emptyCatalog "v" "/d/a.txt" rowF0

/-- Fixture: a Volume row with no prior capacity snapshot. -/
def rowU : VolumeRow := { directory := "/d" }

/-- Fixture: a catalog holding `rowU` under volume id "v". -/
def catU : Catalog := setVolume emptyCatalog "v" rowU

/-- Fixture: a `created` event call for `/d/a.txt` on volume "v". -/
def callC : LogCall :=
  { event_type := "created", path := "/d/a.txt", directory := "/d",
    volume_id := "v", process_id := none, timestamp := 0, mount_metadata := none }

/-- Fixture: a later `modified` event on the same volume from a different
root directory. -/
def callC2 : LogCall :=
  { callC with event_type := "modified", directory := "/d2", timestamp := 9 }

/-- Fixture: the Volume row produced by `callC` on an empty catalog under
`envF` (whose disk-usage read fails, so the usage columns stay NULL). -/
def rowC : VolumeRow :=
  { directory := "/d", event_count := 1, created_count := 1,
    last_event_timestamp := some 0, events_since_refresh := 1 }

/-! ## Supporting lemmas -/

theorem truthyOpt_eq_some_self {s : String} (h : s ≠ "") :
    truthyOpt (some s) = some s := by
  unfold truthyOpt
  simp [String.isEmpty_iff, h]

theorem truthyOpt_idem {a : Option String} {x : String}
    (h : truthyOpt a = some x) : truthyOpt (some x) = some x := by
  unfold truthyOpt at h ⊢
  cases a with
  | none => simp at h
  | some s =>
      by_cases hs : s.isEmpty <;> simp [hs] at h <;> simp [← h, hs]

theorem pyOr_of_truthy {a : Option String} {x : String} (b : String)
    (h : truthyOpt a = some x) : pyOr a b = x := by
  unfold pyOr
  rw [h]

theorem pyOr_of_falsy {a : Option String} (b : String)
    (h : truthyOpt a = none) : pyOr a b = b := by
  unfold pyOr
  rw [h]

theorem setVolume_volumes_self (cat : Catalog) (v : String) (row : VolumeRow) :
    (setVolume cat v row).volumes v = some row := by
  simp [setVolume]

theorem setVolume_volumes_ne (cat : Catalog) (v : String) (row : VolumeRow)
    {w : String} (h : w ≠ v) : (setVolume cat v row).volumes w = cat.volumes w := by
  simp [setVolume, h]

theorem refresh_cases (env : Env) (cat : Catalog) (v d : String) (ts : Int) :
    _maybe_refresh_volume_usage env cat v d ts = cat ∨
    ∃ row usage, cat.volumes v = some row ∧ env.disk_usage d = some usage ∧
      shouldRefreshUsage row ts = true ∧
      _maybe_refresh_volume_usage env cat v d ts =
        setVolume cat v (refreshedUsageRow row usage ts) := by
  cases h : cat.volumes v with
  | none =>
      left
      simp [_maybe_refresh_volume_usage, h]
  | some row =>
      by_cases hs : shouldRefreshUsage row ts = true
      · cases hu : env.disk_usage d with
        | none =>
            left
            simp [_maybe_refresh_volume_usage, h, hs, hu]
        | some usage =>
            right
            exact ⟨row, usage, rfl, rfl, hs,
              by simp [_maybe_refresh_volume_usage, h, hs, hu]⟩
      · have hs2 : shouldRefreshUsage row ts = false := by simpa using hs
        left
        simp [_maybe_refresh_volume_usage, h, hs2]

theorem refresh_events (env : Env) (cat : Catalog) (v d : String) (ts : Int) :
    (_maybe_refresh_volume_usage env cat v d ts).events = cat.events := by
  rcases refresh_cases env cat v d ts with h | ⟨row, usage, _, _, _, h⟩ <;>
    rw [h] <;> rfl

theorem refresh_files (env : Env) (cat : Catalog) (v d : String) (ts : Int) :
    (_maybe_refresh_volume_usage env cat v d ts).files = cat.files := by
  rcases refresh_cases env cat v d ts with h | ⟨row, usage, _, _, _, h⟩ <;>
    rw [h] <;> rfl

theorem refresh_volumes_ne (env : Env) (cat : Catalog) (v d : String) (ts : Int)
    {w : String} (h : w ≠ v) :
    (_maybe_refresh_volume_usage env cat v d ts).volumes w = cat.volumes w := by
  rcases refresh_cases env cat v d ts with heq | ⟨row, usage, _, _, _, heq⟩
  · rw [heq]
  · rw [heq, setVolume_volumes_ne _ _ _ h]

theorem refresh_volumes_self (env : Env) (cat : Catalog) (v d : String) (ts : Int)
    {row : VolumeRow} (h : cat.volumes v = some row) :
    ∃ row2, (_maybe_refresh_volume_usage env cat v d ts).volumes v = some row2 ∧
      countersAgree row row2 := by
  rcases refresh_cases env cat v d ts with heq | ⟨row1, usage, hrow, _, _, heq⟩
  · exact ⟨row, by rw [heq]; exact h, rfl, rfl, rfl, rfl, rfl⟩
  · rw [h] at hrow
    cases hrow
    rw [heq, setVolume_volumes_self]
    exact ⟨_, rfl, rfl, rfl, rfl, rfl, rfl⟩

theorem persist_cases (cat : Catalog) (v d : String) (ts : Int)
    (md : MountMetadata) :
    _maybe_persist_volume_identity cat v d ts md = cat ∨
    ∃ row, cat.volumes v = some row ∧ identityAnyUpdate md v d = true ∧
      _maybe_persist_volume_identity cat v d ts md =
        setVolume cat v (identityUpdatedRow row md v d ts) := by
  cases h : cat.volumes v with
  | none =>
      left
      simp [_maybe_persist_volume_identity, h]
  | some row =>
      by_cases ha : identityAnyUpdate md v d = true
      · right
        exact ⟨row, rfl, ha, by simp [_maybe_persist_volume_identity, h, ha]⟩
      · have ha2 : identityAnyUpdate md v d = false := by simpa using ha
        left
        simp [_maybe_persist_volume_identity, h, ha2]

theorem persist_events (cat : Catalog) (v d : String) (ts : Int)
    (md : MountMetadata) :
    (_maybe_persist_volume_identity cat v d ts md).events = cat.events := by
  rcases persist_cases cat v d ts md with h | ⟨row, _, _, h⟩ <;> rw [h]
  rfl

theorem persist_files (cat : Catalog) (v d : String) (ts : Int)
    (md : MountMetadata) :
    (_maybe_persist_volume_identity cat v d ts md).files = cat.files := by
  rcases persist_cases cat v d ts md with h | ⟨row, _, _, h⟩ <;> rw [h]
  rfl

theorem persist_volumes_ne (cat : Catalog) (v d : String) (ts : Int)
    (md : MountMetadata) {w : String} (h : w ≠ v) :
    (_maybe_persist_volume_identity cat v d ts md).volumes w = cat.volumes w := by
  rcases persist_cases cat v d ts md with heq | ⟨row, _, _, heq⟩
  · rw [heq]
  · rw [heq, setVolume_volumes_ne _ _ _ h]

theorem identityUpdatedRow_counters (row : VolumeRow) (md : MountMetadata)
    (v d : String) (ts : Int) : countersAgree row (identityUpdatedRow row md v d ts) := by
  exact ⟨rfl, rfl, rfl, rfl, rfl⟩

theorem persist_volumes_self (cat : Catalog) (v d : String) (ts : Int)
    (md : MountMetadata) {row : VolumeRow} (h : cat.volumes v = some row) :
    ∃ row2, (_maybe_persist_volume_identity cat v d ts md).volumes v = some row2 ∧
      countersAgree row row2 := by
  rcases persist_cases cat v d ts md with heq | ⟨row1, hrow, _, heq⟩
  · exact ⟨row, by rw [heq]; exact h, rfl, rfl, rfl, rfl, rfl⟩
  · rw [h] at hrow
    cases hrow
    rw [heq, setVolume_volumes_self]
    exact ⟨_, rfl, identityUpdatedRow_counters _ _ _ _ _⟩

theorem file_update_events (env : Env) (cat : Catalog)
    (t p d v : String) (ts : Int) :
    (_update_file_metadata env cat t p d v ts).events = cat.events := rfl

theorem file_update_volumes (env : Env) (cat : Catalog)
    (t p d v : String) (ts : Int) :
    (_update_file_metadata env cat t p d v ts).volumes = cat.volumes := rfl

theorem file_update_files (env : Env) (cat : Catalog)
    (t p d v : String) (ts : Int) :
    (_update_file_metadata env cat t p d v ts).files =
      fileTableAfterEvent env cat.files t p d v ts := rfl

theorem volmeta_events (env : Env) (cat : Catalog) (v d t : String) (ts : Int)
    (md : Option MountMetadata) :
    (_update_volume_metadata env cat v d t ts md).events = cat.events := by
  unfold _update_volume_metadata
  cases md with
  | none =>
      rw [refresh_events]
      rfl
  | some m =>
      rw [persist_events, refresh_events]
      rfl

theorem volmeta_files (env : Env) (cat : Catalog) (v d t : String) (ts : Int)
    (md : Option MountMetadata) :
    (_update_volume_metadata env cat v d t ts md).files = cat.files := by
  unfold _update_volume_metadata
  cases md with
  | none =>
      rw [refresh_files]
      rfl
  | some m =>
      rw [persist_files, refresh_files]
      rfl

theorem volmeta_volumes_ne (env : Env) (cat : Catalog) (v d t : String)
    (ts : Int) (md : Option MountMetadata) {w : String} (h : w ≠ v) :
    (_update_volume_metadata env cat v d t ts md).volumes w = cat.volumes w := by
  unfold _update_volume_metadata
  cases md with
  | none => rw [refresh_volumes_ne _ _ _ _ _ h, setVolume_volumes_ne _ _ _ h]
  | some m =>
      rw [persist_volumes_ne _ _ _ _ _ h, refresh_volumes_ne _ _ _ _ _ h,
        setVolume_volumes_ne _ _ _ h]

/-- The counters written by the bump UPDATE inside
`_update_volume_metadata`, as a function of the pre-state row. -/
theorem volmeta_volumes_self (env : Env) (cat : Catalog) (v d t : String)
    (ts : Int) (md : Option MountMetadata) :
    ∃ row2, (_update_volume_metadata env cat v d t ts md).volumes v = some row2 ∧
      row2.directory = d ∧
      row2.event_count = ((cat.volumes v).map VolumeRow.event_count).getD 0 + 1 ∧
      row2.created_count = ((cat.volumes v).map VolumeRow.created_count).getD 0 +
        (if t = "created" then 1 else 0) ∧
      row2.modified_count = ((cat.volumes v).map VolumeRow.modified_count).getD 0 +
        (if t = "modified" then 1 else 0) ∧
      row2.deleted_count = ((cat.volumes v).map VolumeRow.deleted_count).getD 0 +
        (if t = "deleted" then 1 else 0) := by
  have hb1 : (bumpedVolumeRow (cat.volumes v) d t ts).directory = d := by
    cases hv : cat.volumes v <;> simp [bumpedVolumeRow]
  have hb2 : (bumpedVolumeRow (cat.volumes v) d t ts).event_count =
      ((cat.volumes v).map VolumeRow.event_count).getD 0 + 1 := by
    cases hv : cat.volumes v <;> simp [bumpedVolumeRow]
  have hb3 : (bumpedVolumeRow (cat.volumes v) d t ts).created_count =
      ((cat.volumes v).map VolumeRow.created_count).getD 0 +
        (if t = "created" then 1 else 0) := by
    cases hv : cat.volumes v <;> simp [bumpedVolumeRow]
  have hb4 : (bumpedVolumeRow (cat.volumes v) d t ts).modified_count =
      ((cat.volumes v).map VolumeRow.modified_count).getD 0 +
        (if t = "modified" then 1 else 0) := by
    cases hv : cat.volumes v <;> simp [bumpedVolumeRow]
  have hb5 : (bumpedVolumeRow (cat.volumes v) d t ts).deleted_count =
      ((cat.volumes v).map VolumeRow.deleted_count).getD 0 +
        (if t = "deleted" then 1 else 0) := by
    cases hv : cat.volumes v <;> simp [bumpedVolumeRow]
  unfold _update_volume_metadata
  cases md with
  | none =>
      obtain ⟨row2, hr, hdir, hec, hcc, hmc, hdc⟩ :=
        refresh_volumes_self env (setVolume cat v (bumpedVolumeRow (cat.volumes v) d t ts))
          v d ts (setVolume_volumes_self cat v _)
      exact ⟨row2, hr, hdir.trans hb1, hec.trans hb2, hcc.trans hb3,
        hmc.trans hb4, hdc.trans hb5⟩
  | some m =>
      obtain ⟨row2, hr, hdir2, hec2, hcc2, hmc2, hdc2⟩ :=
        refresh_volumes_self env (setVolume cat v (bumpedVolumeRow (cat.volumes v) d t ts))
          v d ts (setVolume_volumes_self cat v _)
      obtain ⟨row3, hr3, hdir3, hec3, hcc3, hmc3, hdc3⟩ :=
        persist_volumes_self _ v d ts m hr
      exact ⟨row3, hr3, (hdir3.trans hdir2).trans hb1,
        (hec3.trans hec2).trans hb2, (hcc3.trans hcc2).trans hb3,
        (hmc3.trans hmc2).trans hb4, (hdc3.trans hdc2).trans hb5⟩

/-- The Event row appended by one `log_event` call. -/
def mkEventRow (event_type path directory volume_id : String)
    (process_id : Option String) (timestamp : Int) : EventRow :=
  { timestamp := timestamp, event_type := event_type, path := path,
    directory := directory, volume_id := volume_id, process_id := process_id }

theorem log_event_events (env : Env) (cat : Catalog)
    (t p d v : String) (pid : Option String) (ts : Int)
    (md : Option MountMetadata) :
    (log_event env cat t p d v pid ts md).events =
      cat.events ++ [mkEventRow t p d v pid ts] := by
  unfold log_event
  rw [file_update_events, volmeta_events]
  rfl

theorem log_event_volumes_ne (env : Env) (cat : Catalog)
    (t p d v : String) (pid : Option String) (ts : Int)
    (md : Option MountMetadata) {w : String} (h : w ≠ v) :
    (log_event env cat t p d v pid ts md).volumes w = cat.volumes w := by
  unfold log_event
  rw [file_update_volumes, volmeta_volumes_ne _ _ _ _ _ _ _ h]

theorem log_event_volume_self (env : Env) (cat : Catalog)
    (t p d v : String) (pid : Option String) (ts : Int)
    (md : Option MountMetadata) :
    ∃ row2, (log_event env cat t p d v pid ts md).volumes v = some row2 ∧
      row2.directory = d ∧
      row2.event_count = ((cat.volumes v).map VolumeRow.event_count).getD 0 + 1 ∧
      row2.created_count = ((cat.volumes v).map VolumeRow.created_count).getD 0 +
        (if t = "created" then 1 else 0) ∧
      row2.modified_count = ((cat.volumes v).map VolumeRow.modified_count).getD 0 +
        (if t = "modified" then 1 else 0) ∧
      row2.deleted_count = ((cat.volumes v).map VolumeRow.deleted_count).getD 0 +
        (if t = "deleted" then 1 else 0) := by
  unfold log_event
  rw [file_update_volumes]
  exact volmeta_volumes_self env _ v d t ts md

theorem log_event_files (env : Env) (cat : Catalog)
    (t p d v : String) (pid : Option String) (ts : Int)
    (md : Option MountMetadata) :
    (log_event env cat t p d v pid ts md).files =
      fileTableAfterEvent env cat.files t p d v ts := by
  unfold log_event
  rw [file_update_files, volmeta_files]

theorem eventCountFor_append (evs : List EventRow) (e : EventRow) (v : String) :
    eventCountFor (evs ++ [e]) v =
      eventCountFor evs v + (if e.volume_id = v then 1 else 0) := by
  unfold eventCountFor
  rw [List.filter_append, List.length_append]
  by_cases h : e.volume_id = v <;> simp [h]

theorem kindCountFor_append (evs : List EventRow) (e : EventRow) (v k : String) :
    kindCountFor (evs ++ [e]) v k =
      kindCountFor evs v k +
        (if e.volume_id = v ∧ e.event_type = k then 1 else 0) := by
  unfold kindCountFor
  rw [List.filter_append, List.length_append]
  by_cases h1 : e.volume_id = v <;> by_cases h2 : e.event_type = k <;>
    simp [h1, h2]

theorem volumeCountInvariant_empty : volumeCountInvariant emptyCatalog := by
  intro v
  refine ⟨fun _ => rfl, fun row h => ?_⟩
  simp [emptyCatalog] at h

theorem log_event_invariant (env : Env) (cat : Catalog)
    (t p d v : String) (pid : Option String) (ts : Int)
    (md : Option MountMetadata) (h : volumeCountInvariant cat) :
    volumeCountInvariant (log_event env cat t p d v pid ts md) := by
  intro w
  by_cases hw : w = v
  · subst hw
    obtain ⟨row2, hrow2, _, hec, hcc, hmc, hdc⟩ :=
      log_event_volume_self env cat t p d w pid ts md
    refine ⟨fun hnone => ?_, fun row hr => ?_⟩
    · rw [hrow2] at hnone
      cases hnone
    · rw [hrow2] at hr
      cases hr
      rw [log_event_events]
      refine ⟨?_, ?_, ?_, ?_⟩
      · rw [hec, eventCountFor_append]
        cases hv : cat.volumes w with
        | none =>
            have h0 := (h w).1 hv
            simp [hv, h0, mkEventRow]
        | some prior =>
            have h1 := ((h w).2 prior hv).1
            simp [hv, ← h1, mkEventRow]
      · rw [hcc, kindCountFor_append]
        cases hv : cat.volumes w with
        | none =>
            have h0 : kindCountFor cat.events w "created" = 0 := by
              have h0 := (h w).1 hv
              unfold eventCountFor at h0
              unfold kindCountFor
              rw [List.length_eq_zero] at h0 ⊢
              rw [List.filter_eq_nil] at h0 ⊢
              intro a ha
              have := h0 a ha
              simp at this ⊢
              intro hvv
              exact absurd hvv this
            simp [hv, h0, mkEventRow]
        | some prior =>
            have h1 := ((h w).2 prior hv).2.1
            simp [hv, ← h1, mkEventRow]
      · rw [hmc, kindCountFor_append]
        cases hv : cat.volumes w with
        | none =>
            have h0 : kindCountFor cat.events w "modified" = 0 := by
              have h0 := (h w).1 hv
              unfold eventCountFor at h0
              unfold kindCountFor
              rw [List.length_eq_zero] at h0 ⊢
              rw [List.filter_eq_nil] at h0 ⊢
              intro a ha
              have := h0 a ha
              simp at this ⊢
              intro hvv
              exact absurd hvv this
            simp [hv, h0, mkEventRow]
        | some prior =>
            have h1 := ((h w).2 prior hv).2.2.1
            simp [hv, ← h1, mkEventRow]
      · rw [hdc, kindCountFor_append]
        cases hv : cat.volumes w with
        | none =>
            have h0 : kindCountFor cat.events w "deleted" = 0 := by
              have h0 := (h w).1 hv
              unfold eventCountFor at h0
              unfold kindCountFor
              rw [List.length_eq_zero] at h0 ⊢
              rw [List.filter_eq_nil] at h0 ⊢
              intro a ha
              have := h0 a ha
              simp at this ⊢
              intro hvv
              exact absurd hvv this
            simp [hv, h0, mkEventRow]
        | some prior =>
            have h1 := ((h w).2 prior hv).2.2.2
            simp [hv, ← h1, mkEventRow]
  · rw [show (log_event env cat t p d v pid ts md).volumes w = cat.volumes w from
      log_event_volumes_ne env cat t p d v pid ts md hw] at *
    have hcount : eventCountFor (log_event env cat t p d v pid ts md).events w =
        eventCountFor cat.events w := by
      rw [log_event_events, eventCountFor_append]
      simp [mkEventRow, hw, Ne.symm hw]
    have hkind : ∀ k, kindCountFor (log_event env cat t p d v pid ts md).events w k =
        kindCountFor cat.events w k := by
      intro k
      rw [log_event_events, kindCountFor_append]
      simp [mkEventRow, Ne.symm hw]
    refine ⟨fun hnone => ?_, fun row hr => ?_⟩
    · rw [hcount]
      exact (h w).1 hnone
    · obtain ⟨e1, e2, e3, e4⟩ := (h w).2 row hr
      rw [hcount, hkind, hkind, hkind]
      exact ⟨e1, e2, e3, e4⟩

theorem applyCalls_invariant (env : Env) (calls : List LogCall) :
    ∀ cat : Catalog, volumeCountInvariant cat →
      volumeCountInvariant (applyCalls env cat calls) := by
  induction calls with
  | nil => intro cat h; exact h
  | cons c cs ih =>
      intro cat h
      exact ih _ (log_event_invariant env cat c.event_type c.path c.directory
        c.volume_id c.process_id c.timestamp c.mount_metadata h)

theorem applyCalls_lastDir (env : Env) (cs : List LogCall) :
    ∀ (cat : Catalog) (v : String) (acc : Option String),
      (∀ d0, acc = some d0 → ∃ row, cat.volumes v = some row ∧ row.directory = d0) →
      ∀ d, cs.foldl
          (fun a c => if c.volume_id = v then some c.directory else a) acc = some d →
        ∃ row, (applyCalls env cat cs).volumes v = some row ∧ row.directory = d := by
  induction cs with
  | nil =>
      intro cat v acc hrel d hd
      exact hrel d hd
  | cons c cs ih =>
      intro cat v acc hrel d hd
      simp only [List.foldl_cons] at hd
      refine ih (log_event env cat c.event_type c.path c.directory c.volume_id
        c.process_id c.timestamp c.mount_metadata) v _ ?_ d hd
      intro d0 hacc
      by_cases hv : c.volume_id = v
      · rw [if_pos hv] at hacc
        cases hacc
        obtain ⟨row2, hr, hdir, _⟩ :=
          log_event_volume_self env cat c.event_type c.path c.directory
            c.volume_id c.process_id c.timestamp c.mount_metadata
        rw [← hv]
        exact ⟨row2, hr, hdir⟩
      · rw [if_neg hv] at hacc
        obtain ⟨row0, hr0, hdir0⟩ := hrel d0 hacc
        refine ⟨row0, ?_, hdir0⟩
        rw [log_event_volumes_ne env cat c.event_type c.path c.directory
          c.volume_id c.process_id c.timestamp c.mount_metadata
          (fun hvv => hv hvv.symm)]
        exact hr0

/-! ## Claim theorems -/

/-- C2. Event conservation: for every sequence of `log_event` calls
against an initially empty catalog and every volume id `v` whose Volume
row exists afterwards, `event_count` equals the number of Event rows with
volume id `v`, and each per-kind counter (`created_count`,
`modified_count`, `deleted_count`) equals the number of Event rows of
that kind for `v`. -/
theorem event_conservation (env : Env) (calls : List LogCall) (v : String)
    (row : VolumeRow)
    (h : (applyCalls env emptyCatalog calls).volumes v = some row) :
    row.event_count = eventCountFor (applyCalls env emptyCatalog calls).events v ∧
    row.created_count =
      kindCountFor (applyCalls env emptyCatalog calls).events v "created" ∧
    row.modified_count =
      kindCountFor (applyCalls env emptyCatalog calls).events v "modified" ∧
    row.deleted_count =
      kindCountFor (applyCalls env emptyCatalog calls).events v "deleted" :=
  (applyCalls_invariant env calls emptyCatalog volumeCountInvariant_empty v).2 row h

/-- C10. Last-writer-wins for the Volume `directory` column: every
`log_event` call overwrites it with that call's directory argument
(INSERT ... ON CONFLICT DO UPDATE SET directory = excluded.directory), so
after any call sequence the stored root directory is the directory of the
most recent call for that volume id. -/
theorem volume_directory_last_writer (env : Env) (cat : Catalog)
    (calls : List LogCall) (v d : String)
    (h : lastDirFor calls v = some d) :
    ∃ row, (applyCalls env cat calls).volumes v = some row ∧ row.directory = d :=
  applyCalls_lastDir env calls cat v none (fun d0 h0 => by cases h0) d h

theorem fileTable_deleted (env : Env) (files : FileTable) (p d v : String)
    (ts : Int) {row : FileRow} (hig : fileIgnored p = false)
    (hrow : files (v, p) = some row) :
    fileTableAfterEvent env files "deleted" p d v ts (v, p) =
      some { row with
             is_deleted := 1
             size_bytes := none
             modified_time := none
             last_event_timestamp := some ts
             last_event_type := some "deleted" } := by
  unfold fileTableAfterEvent
  simp [hig, hrow, setFileKey]

theorem fileTable_upsert (env : Env) (files : FileTable) (t p d v : String)
    (ts : Int) (sz : Nat) (mt ct : Int) (old : FileRow)
    (hig : fileIgnored p = false) (ht : t ≠ "deleted")
    (hstat : env.stat p = .found sz mt ct true)
    (hrow : files (v, p) = some old) :
    fileTableAfterEvent env files t p d v ts (v, p) =
      some { directory := d
             size_bytes := some sz
             modified_time := some mt
             created_time :=
               match old.created_time with
               | some c => some c
               | none => some ct
             last_event_timestamp := some ts
             last_event_type := some t
             is_deleted := 0 } := by
  unfold fileTableAfterEvent
  simp [hig, ht, hstat, hrow, setFileKey]

/-- C3. Tombstone correctness: with an existing File row for (v, p) whose
basename is not in the deny-set, a `deleted` event sets `is_deleted = 1`,
nulls size and mtime, and stamps the last-event columns (leaving
`created_time` in place); a following `created` or `modified` event on
the same key whose stat succeeds on a regular file clears the flag,
refreshes size and mtime, and preserves the prior `created_time`. -/
theorem tombstone_correctness (env : Env) (cat : Catalog) (v p d1 d2 : String)
    (pid1 pid2 : Option String) (ts1 ts2 : Int) (md1 md2 : Option MountMetadata)
    (t2 : String) (row : FileRow) (sz : Nat) (mt ct : Int)
    (hrow : cat.files (v, p) = some row)
    (hig : fileIgnored p = false)
    (hstat : env.stat p = .found sz mt ct true)
    (ht2 : t2 = "created" ∨ t2 = "modified") :
    (∃ row1,
      (log_event env cat "deleted" p d1 v pid1 ts1 md1).files (v, p) = some row1 ∧
      row1.is_deleted = 1 ∧ row1.size_bytes = none ∧ row1.modified_time = none ∧
      row1.last_event_timestamp = some ts1 ∧
      row1.last_event_type = some "deleted" ∧
      row1.created_time = row.created_time) ∧
    (∃ row2,
      (log_event env (log_event env cat "deleted" p d1 v pid1 ts1 md1)
          t2 p d2 v pid2 ts2 md2).files (v, p) = some row2 ∧
      row2.is_deleted = 0 ∧ row2.size_bytes = some sz ∧
      row2.modified_time = some mt ∧
      row2.last_event_timestamp = some ts2 ∧ row2.last_event_type = some t2 ∧
      ∀ c, row.created_time = some c → row2.created_time = some c) := by
  have ht2' : t2 ≠ "deleted" := by
    rcases ht2 with h | h <;> subst h <;> decide
  have h1 :
      (log_event env cat "deleted" p d1 v pid1 ts1 md1).files (v, p) =
        some { row with
               is_deleted := 1
               size_bytes := none
               modified_time := none
               last_event_timestamp := some ts1
               last_event_type := some "deleted" } := by
    rw [log_event_files]
    exact fileTable_deleted env cat.files p d1 v ts1 hig hrow
  constructor
  · exact ⟨_, h1, rfl, rfl, rfl, rfl, rfl, rfl⟩
  · have h2 :
        (log_event env (log_event env cat "deleted" p d1 v pid1 ts1 md1)
            t2 p d2 v pid2 ts2 md2).files (v, p) =
          some { directory := d2
                 size_bytes := some sz
                 modified_time := some mt
                 created_time :=
                   match row.created_time with
                   | some c => some c
                   | none => some ct
                 last_event_timestamp := some ts2
                 last_event_type := some t2
                 is_deleted := 0 } := by
      rw [log_event_files]
      exact fileTable_upsert env _ t2 p d2 v ts2 sz mt ct
        { row with
          is_deleted := 1
          size_bytes := none
          modified_time := none
          last_event_timestamp := some ts1
          last_event_type := some "deleted" } hig ht2' hstat h1
    refine ⟨_, h2, rfl, rfl, rfl, rfl, rfl, ?_⟩
    intro c hc
    simp [hc]

theorem shouldRefreshUsage_iff (row : VolumeRow) (ts : Int) :
    shouldRefreshUsage row ts = true ↔
      row.usage_refreshed_at = none ∨
      (∃ r, row.usage_refreshed_at = some r ∧
        ts - r ≥ VOLUME_USAGE_REFRESH_SECONDS) ∨
      row.events_since_refresh ≥ VOLUME_USAGE_REFRESH_EVENT_THRESHOLD := by
  unfold shouldRefreshUsage
  cases h : row.usage_refreshed_at <;>
    simp [h, Bool.or_eq_true, decide_eq_true_eq]

/-- C6. Capacity refresh policy: with the Volume row as stored when
`_maybe_refresh_volume_usage` runs (its `events_since_refresh` already
incremented for this event), capacity is recomputed iff
`usage_refreshed_at` is NULL, or at least 300 seconds separate it from
the event's timestamp, or `events_since_refresh` has reached 100; a
refresh overwrites total/used/free, stamps `usage_refreshed_at` with the
event timestamp, and resets `events_since_refresh` to 0; a failed
disk-usage read leaves the catalog unchanged; no other volume is
touched. -/
theorem capacity_refresh_policy (env : Env) (cat : Catalog) (v d : String)
    (ts : Int) (row : VolumeRow) (hrow : cat.volumes v = some row) :
    (¬ (row.usage_refreshed_at = none ∨
        (∃ r, row.usage_refreshed_at = some r ∧
          ts - r ≥ VOLUME_USAGE_REFRESH_SECONDS) ∨
        row.events_since_refresh ≥ VOLUME_USAGE_REFRESH_EVENT_THRESHOLD) →
      _maybe_refresh_volume_usage env cat v d ts = cat) ∧
    ((row.usage_refreshed_at = none ∨
        (∃ r, row.usage_refreshed_at = some r ∧
          ts - r ≥ VOLUME_USAGE_REFRESH_SECONDS) ∨
        row.events_since_refresh ≥ VOLUME_USAGE_REFRESH_EVENT_THRESHOLD) →
      (env.disk_usage d = none → _maybe_refresh_volume_usage env cat v d ts = cat) ∧
      ∀ usage, env.disk_usage d = some usage →
        (_maybe_refresh_volume_usage env cat v d ts).volumes v =
          some { row with
                 usage_total_bytes := some usage.total
                 usage_used_bytes := some usage.used
                 usage_free_bytes := some usage.free
                 usage_refreshed_at := some ts
                 events_since_refresh := 0 } ∧
        ∀ w, w ≠ v →
          (_maybe_refresh_volume_usage env cat v d ts).volumes w = cat.volumes w) := by
  constructor
  · intro hnc
    have hs : shouldRefreshUsage row ts = false := by
      rcases hb : shouldRefreshUsage row ts with _ | _
      · rfl
      · exact absurd ((shouldRefreshUsage_iff row ts).mp hb) hnc
    unfold _maybe_refresh_volume_usage
    rw [hrow]
    simp [hs]
  · intro hc
    have hs : shouldRefreshUsage row ts = true := (shouldRefreshUsage_iff row ts).mpr hc
    constructor
    · intro hu
      unfold _maybe_refresh_volume_usage
      rw [hrow]
      simp [hs, hu]
    · intro usage hu
      constructor
      · unfold _maybe_refresh_volume_usage
        rw [hrow]
        simp [hs, hu, refreshedUsageRow, setVolume_volumes_self, setVolume]
      · intro w hw
        exact refresh_volumes_ne env cat v d ts hw

/-- Witness for C6: a fresh volume (no `usage_refreshed_at`) under a host
whose disk-usage read succeeds with (100, 60, 40). -/
theorem capacity_refresh_policy_witness :
    (¬ (rowU.usage_refreshed_at = none ∨
        (∃ r, rowU.usage_refreshed_at = some r ∧
          (5 : Int) - r ≥ VOLUME_USAGE_REFRESH_SECONDS) ∨
        rowU.events_since_refresh ≥ VOLUME_USAGE_REFRESH_EVENT_THRESHOLD) →
      _maybe_refresh_volume_usage envU catU "v" "/d" 5 = catU) ∧
    ((rowU.usage_refreshed_at = none ∨
        (∃ r, rowU.usage_refreshed_at = some r ∧
          (5 : Int) - r ≥ VOLUME_USAGE_REFRESH_SECONDS) ∨
        rowU.events_since_refresh ≥ VOLUME_USAGE_REFRESH_EVENT_THRESHOLD) →
      (envU.disk_usage "/d" = none →
        _maybe_refresh_volume_usage envU catU "v" "/d" 5 = catU) ∧
      ∀ usage, envU.disk_usage "/d" = some usage →
        (_maybe_refresh_volume_usage envU catU "v" "/d" 5).volumes "v" =
          some { rowU with
                 usage_total_bytes := some usage.total
                 usage_used_bytes := some usage.used
                 usage_free_bytes := some usage.free
                 usage_refreshed_at := some 5
                 events_since_refresh := 0 } ∧
        ∀ w, w ≠ "v" →
          (_maybe_refresh_volume_usage envU catU "v" "/d" 5).volumes w =
            catU.volumes w) :=
  capacity_refresh_policy envU catU "v" "/d" 5 rowU (by decide)

/-- Witness for C3: the concrete delete/create cycle on
("v", "/d/a.txt") starting from `catF` under `envF`. -/
theorem tombstone_correctness_witness :
    (∃ row1,
      (log_event envF catF "deleted" "/d/a.txt" "/d" "v" none 7 none).files
          ("v", "/d/a.txt") = some row1 ∧
      row1.is_deleted = 1 ∧ row1.size_bytes = none ∧ row1.modified_time = none ∧
      row1.last_event_timestamp = some 7 ∧
      row1.last_event_type = some "deleted" ∧
      row1.created_time = rowF0.created_time) ∧
    (∃ row2,
      (log_event envF (log_event envF catF "deleted" "/d/a.txt" "/d" "v" none 7 none)
          "created" "/d/a.txt" "/d2" "v" none 9 none).files
          ("v", "/d/a.txt") = some row2 ∧
      row2.is_deleted = 0 ∧ row2.size_bytes = some 2 ∧
      row2.modified_time = some 10 ∧
      row2.last_event_timestamp = some 9 ∧ row2.last_event_type = some "created" ∧
      ∀ c, rowF0.created_time = some c → row2.created_time = some c) :=
  tombstone_correctness envF catF "v" "/d/a.txt" "/d" "/d2" none none 7 9 none none
    "created" rowF0 2 10 5 (by decide) (by decide) (by decide) (Or.inl rfl)

/-- Witness for C2: one `created` call on an empty catalog yields the
concrete row `rowC`, whose counters match the concrete event counts. -/
theorem event_conservation_witness :
    rowC.event_count = eventCountFor (applyCalls envF emptyCatalog [callC]).events "v" ∧
    rowC.created_count =
      kindCountFor (applyCalls envF emptyCatalog [callC]).events "v" "created" ∧
    rowC.modified_count =
      kindCountFor (applyCalls envF emptyCatalog [callC]).events "v" "modified" ∧
    rowC.deleted_count =
      kindCountFor (applyCalls envF emptyCatalog [callC]).events "v" "deleted" :=
  event_conservation envF [callC] "v" rowC (by decide)

/-- Witness for C10: after a `created` call with directory `/d` and a
`modified` call with directory `/d2`, the stored directory is `/d2`. -/
theorem volume_directory_last_writer_witness :
    ∃ row, (applyCalls envF emptyCatalog [callC, callC2]).volumes "v" = some row ∧
      row.directory = "/d2" :=
  volume_directory_last_writer envF emptyCatalog [callC, callC2] "v" "/d2" (by decide)

/-- C7 counterexample: the metadata dict carries only a device node — no
`mount_point` key — yet the stored non-null `mount_point` "/old" is
overwritten with the event's directory "/mnt/x". So it is not the case
that only identity columns whose incoming value is present and truthy are
written. -/
theorem identity_sticky_counterexample :
    mdDeviceOnly.mount_point = none ∧
    (catV.volumes "v").map VolumeRow.mount_point = some (some "/old") ∧
    ((_maybe_persist_volume_identity catV "v" "/mnt/x" 5 mdDeviceOnly).volumes
        "v").map VolumeRow.mount_point = some (some "/mnt/x") := by
  decide

/-- C7 as amended. For every identity persist with (truthy) mount
metadata: each identity column other than `mount_point` is overwritten
exactly by a present-and-truthy incoming value and is otherwise
preserved (never clobbered by null or missing); `mount_point`, when its
incoming value is missing or falsy, falls back to the event's non-empty
directory; `mount_volume_id` is only written when the hint differs from
the volume id; the canonical serialized lsblk blob is persisted exactly
when a non-empty payload is provided; and `identity_refreshed_at` is
stamped with the event timestamp exactly when the update dict is
non-empty. -/
theorem identity_sticky_update (cat : Catalog) (v d : String) (ts : Int)
    (md : MountMetadata) (row : VolumeRow) (hrow : cat.volumes v = some row) :
    ∃ row2, (_maybe_persist_volume_identity cat v d ts md).volumes v = some row2 ∧
      (truthyOpt md.device = none → row2.mount_device = row.mount_device) ∧
      (∀ x, truthyOpt md.device = some x → row2.mount_device = some x) ∧
      (truthyOpt md.uuid = none → row2.mount_uuid = row.mount_uuid) ∧
      (∀ x, truthyOpt md.uuid = some x → row2.mount_uuid = some x) ∧
      (truthyOpt md.label = none → row2.mount_label = row.mount_label) ∧
      (∀ x, truthyOpt md.label = some x → row2.mount_label = some x) ∧
      (∀ x, truthyOpt md.mount_point = some x → row2.mount_point = some x) ∧
      (truthyOpt md.mount_point = none → d ≠ "" → row2.mount_point = some d) ∧
      (truthyOpt md.mount_point = none → d = "" →
        row2.mount_point = row.mount_point) ∧
      (truthyOpt md.volume_id = none →
        row2.mount_volume_id = row.mount_volume_id) ∧
      (truthyOpt md.volume_id = some v →
        row2.mount_volume_id = row.mount_volume_id) ∧
      (∀ x, truthyOpt md.volume_id = some x → x ≠ v →
        row2.mount_volume_id = some x) ∧
      (md.lsblk.getD [] = [] → row2.lsblk_json = row.lsblk_json) ∧
      (md.lsblk.getD [] ≠ [] →
        row2.lsblk_json = some (canonicalSerialize (md.lsblk.getD []))) ∧
      (∀ key ∈ LSBLK_KEYS,
        truthyOpt (payloadGet (md.lsblk.getD []) key) = none →
          lsblkColumn row2 key = lsblkColumn row key) ∧
      (∀ key ∈ LSBLK_KEYS, ∀ x,
        truthyOpt (payloadGet (md.lsblk.getD []) key) = some x →
          lsblkColumn row2 key = some x) ∧
      row2.identity_refreshed_at =
        (if identityAnyUpdate md v d then some ts else row.identity_refreshed_at) := by
  by_cases ha : identityAnyUpdate md v d = true
  · have heq : _maybe_persist_volume_identity cat v d ts md =
        setVolume cat v (identityUpdatedRow row md v d ts) := by
      simp [_maybe_persist_volume_identity, hrow, ha]
    refine ⟨identityUpdatedRow row md v d ts,
      by rw [heq, setVolume_volumes_self], ?_, ?_, ?_, ?_, ?_, ?_, ?_, ?_, ?_,
      ?_, ?_, ?_, ?_, ?_, ?_, ?_, ?_⟩
    · intro h
      simp [identityUpdatedRow, updCol, h]
    · intro x h
      simp [identityUpdatedRow, updCol, h]
    · intro h
      simp [identityUpdatedRow, updCol, h]
    · intro x h
      simp [identityUpdatedRow, updCol, h]
    · intro h
      simp [identityUpdatedRow, updCol, h]
    · intro x h
      simp [identityUpdatedRow, updCol, h]
    · intro x h
      simp [identityUpdatedRow, updCol, pyOr_of_truthy d h, truthyOpt_idem h]
    · intro h hd
      simp [identityUpdatedRow, updCol, pyOr_of_falsy d h,
        truthyOpt_eq_some_self hd]
    · intro h hd
      subst hd
      simp [identityUpdatedRow, updCol, pyOr_of_falsy "" h, truthyOpt,
        String.isEmpty_iff]
    · intro h
      simp [identityUpdatedRow, updCol, volHintFor, h]
    · intro h
      simp [identityUpdatedRow, updCol, volHintFor, h]
    · intro x h hx
      simp [identityUpdatedRow, updCol, volHintFor, h, hx]
    · intro h
      simp [identityUpdatedRow, updCol, h]
    · intro h
      have : (md.lsblk.getD []).isEmpty = false := by
        cases hp : md.lsblk.getD [] with
        | nil => exact absurd hp h
        | cons a l => rfl
      simp [identityUpdatedRow, updCol, this]
    · intro key hkey h
      fin_cases hkey <;> simp [identityUpdatedRow, updCol, lsblkColumn, h]
    · intro key hkey x h
      fin_cases hkey <;> simp [identityUpdatedRow, updCol, lsblkColumn, h]
    · simp [identityUpdatedRow, ha]
  · have ha2 : identityAnyUpdate md v d = false := by simpa using ha
    have heq : _maybe_persist_volume_identity cat v d ts md = cat := by
      simp [_maybe_persist_volume_identity, hrow, ha2]
    have hparts := ha2
    unfold identityAnyUpdate at hparts
    simp only [Bool.or_eq_false_iff] at hparts
    obtain ⟨⟨⟨⟨⟨hdev, hmp⟩, huuid⟩, hlabel⟩, hhint⟩, hpay⟩ := hparts
    have hpayload : md.lsblk.getD [] = [] := by
      cases hp : md.lsblk.getD [] with
      | nil => rfl
      | cons a l =>
          rw [hp] at hpay
          simp at hpay
    refine ⟨row, by rw [heq]; exact hrow, ?_, ?_, ?_, ?_, ?_, ?_, ?_, ?_, ?_,
      ?_, ?_, ?_, ?_, ?_, ?_, ?_, ?_⟩
    · intro _; rfl
    · intro x h
      rw [h] at hdev
      simp at hdev
    · intro _; rfl
    · intro x h
      rw [h] at huuid
      simp at huuid
    · intro _; rfl
    · intro x h
      rw [h] at hlabel
      simp at hlabel
    · intro x h
      rw [pyOr_of_truthy d h, truthyOpt_idem h] at hmp
      simp at hmp
    · intro h hd
      rw [pyOr_of_falsy d h, truthyOpt_eq_some_self hd] at hmp
      simp at hmp
    · intro _ _; rfl
    · intro _; rfl
    · intro _; rfl
    · intro x h hx
      rw [show volHintFor md v = some x by simp [volHintFor, h, hx]] at hhint
      simp at hhint
    · intro _; rfl
    · intro h
      exact absurd hpayload h
    · intro key _ _; rfl
    · intro key _ x h
      rw [hpayload] at h
      simp [payloadGet, truthyOpt] at h
    · simp [ha2]

/-- Witness for the amended C7: metadata carrying a device and a UUID on
a catalog whose row already stores a mount_point. -/
theorem identity_sticky_update_witness :
    ∃ row2, (_maybe_persist_volume_identity catV "v" "/mnt/x" 5 mdDU).volumes
        "v" = some row2 ∧
      (truthyOpt mdDU.device = none → row2.mount_device = rowV.mount_device) ∧
      (∀ x, truthyOpt mdDU.device = some x → row2.mount_device = some x) ∧
      (truthyOpt mdDU.uuid = none → row2.mount_uuid = rowV.mount_uuid) ∧
      (∀ x, truthyOpt mdDU.uuid = some x → row2.mount_uuid = some x) ∧
      (truthyOpt mdDU.label = none → row2.mount_label = rowV.mount_label) ∧
      (∀ x, truthyOpt mdDU.label = some x → row2.mount_label = some x) ∧
      (∀ x, truthyOpt mdDU.mount_point = some x → row2.mount_point = some x) ∧
      (truthyOpt mdDU.mount_point = none → "/mnt/x" ≠ "" →
        row2.mount_point = some "/mnt/x") ∧
      (truthyOpt mdDU.mount_point = none → "/mnt/x" = "" →
        row2.mount_point = rowV.mount_point) ∧
      (truthyOpt mdDU.volume_id = none →
        row2.mount_volume_id = rowV.mount_volume_id) ∧
      (truthyOpt mdDU.volume_id = some "v" →
        row2.mount_volume_id = rowV.mount_volume_id) ∧
      (∀ x, truthyOpt mdDU.volume_id = some x → x ≠ "v" →
        row2.mount_volume_id = some x) ∧
      (mdDU.lsblk.getD [] = [] → row2.lsblk_json = rowV.lsblk_json) ∧
      (mdDU.lsblk.getD [] ≠ [] →
        row2.lsblk_json = some (canonicalSerialize (mdDU.lsblk.getD []))) ∧
      (∀ key ∈ LSBLK_KEYS,
        truthyOpt (payloadGet (mdDU.lsblk.getD []) key) = none →
          lsblkColumn row2 key = lsblkColumn rowV key) ∧
      (∀ key ∈ LSBLK_KEYS, ∀ x,
        truthyOpt (payloadGet (mdDU.lsblk.getD []) key) = some x →
          lsblkColumn row2 key = some x) ∧
      row2.identity_refreshed_at =
        (if identityAnyUpdate mdDU "v" "/mnt/x" then some 5
         else rowV.identity_refreshed_at) :=
  identity_sticky_update catV "v" "/mnt/x" 5 mdDU rowV (by decide)

/-- C1 counterexample: with the volume-derivation helper raising, the
call still returns successfully and the Event row is inserted — the
transaction is not aborted and no error (typed or otherwise) reaches the
caller, contradicting the claimed all-or-nothing behavior. -/
theorem append_event_atomicity_counterexample :
    ∃ c, log_event_with_faults envF faultsVol emptyCatalog "created"
        "/d/a.txt" "/d" "v" none 0 none = .ok c ∧
      c.events = [mkEventRow "created" "/d/a.txt" "/d" "v" none 0] := by
  refine ⟨_, rfl, ?_⟩
  decide

/-- C1 as amended: `log_event` catches the derivation helpers'
exceptions (they are logged, not propagated), so the Event insert
commits whenever it itself succeeds — regardless of derivation faults —
and only a failure of the Event INSERT aborts the call, propagating the
underlying database error with nothing inserted. -/
theorem append_event_fault_behavior (env : Env) (faults : LogEventFaults)
    (cat : Catalog) (t p d v : String) (pid : Option String) (ts : Int)
    (md : Option MountMetadata) :
    (faults.insertFails = true →
      log_event_with_faults env faults cat t p d v pid ts md =
        .error .operationalError) ∧
    (faults.insertFails = false →
      ∃ c, log_event_with_faults env faults cat t p d v pid ts md = .ok c ∧
        c.events = cat.events ++ [mkEventRow t p d v pid ts]) := by
  constructor
  · intro h
    simp [log_event_with_faults, h]
  · intro h
    unfold log_event_with_faults
    rw [h]
    simp only [Bool.false_eq_true, if_false]
    refine ⟨_, rfl, ?_⟩
    by_cases hv : faults.volumeFails <;> by_cases hf : faults.fileFails <;>
      simp [hv, hf, volmeta_events, file_update_events, mkEventRow]

/-- Witness for the amended C1: the fault-free configuration inserts the
event; the same statement's error half is vacuous there. -/
theorem append_event_fault_behavior_witness :
    (faultsNone.insertFails = true →
      log_event_with_faults envF faultsNone emptyCatalog "created"
        "/d/a.txt" "/d" "v" none 0 none = .error .operationalError) ∧
    (faultsNone.insertFails = false →
      ∃ c, log_event_with_faults envF faultsNone emptyCatalog "created"
          "/d/a.txt" "/d" "v" none 0 none = .ok c ∧
        c.events = emptyCatalog.events ++ [mkEventRow "created" "/d/a.txt" "/d" "v" none 0]) :=
  append_event_fault_behavior envF faultsNone emptyCatalog "created"
    "/d/a.txt" "/d" "v" none 0 none

/-- C4 counterexample: after `complete_job` (status "complete",
`completed_at` stamped), a further `update_job` with status "running"
silently overwrites the status — no error is raised (no JobStateError
exists in the code) and the record is left with a non-null
`completed_at` in a non-terminal status, refuting both halves of the
claim. -/
theorem job_terminality_counterexample :
    ((update_job (complete_job jobsA "j" "complete" none 1) "j"
        (some "running") none none false 2) "j").map
      (fun r => (r.status, r.completed_at)) = some ("running", some 1) ∧
    terminalStatuses.contains "running" = false ∧
    ((complete_job jobsA "j" "complete" none 1) "j").map
      (fun r => (r.status, r.completed_at)) = some ("complete", some 1) := by
  decide

/-- C4 as amended: `update_job` applies its arguments unconditionally —
there is no terminality guard and no JobStateError anywhere; an update
without `completed=True` never touches `completed_at`; `complete_job`
stamps `completed_at` and sets the given status; and after a Complete, a
further Update with a status argument overwrites the status while
`completed_at` keeps its non-null value. -/
theorem job_update_behavior (jobs : Jobs) (job_id : String) (row : JobRow)
    (hrow : jobs job_id = some row) :
    (∀ st pr er now, ∃ row2,
      update_job jobs job_id st pr er false now job_id = some row2 ∧
      row2.status = (match st with | some s => s | none => row.status) ∧
      row2.completed_at = row.completed_at ∧ row2.updated_at = now) ∧
    (∀ s pr t, ∃ rowc,
      complete_job jobs job_id s pr t job_id = some rowc ∧
      rowc.status = s ∧ rowc.completed_at = some t) ∧
    (∀ s pr t s2 now2, ∃ rowu,
      update_job (complete_job jobs job_id s pr t) job_id (some s2) none none
        false now2 job_id = some rowu ∧
      rowu.status = s2 ∧ rowu.completed_at = some t) := by
  have setJob_self : ∀ (js : Jobs) (j : String) (r : JobRow),
      setJob js j r j = some r := by
    intro js j r
    simp [setJob]
  refine ⟨?_, ?_, ?_⟩
  · intro st pr er now
    unfold update_job
    rw [hrow]
    exact ⟨_, setJob_self _ _ _, rfl, rfl, rfl⟩
  · intro s pr t
    unfold complete_job update_job
    rw [hrow]
    exact ⟨_, setJob_self _ _ _, rfl, rfl⟩
  · intro s pr t s2 now2
    have hc : complete_job jobs job_id s pr t job_id =
        some { row with
               updated_at := t
               status := s
               progress_json :=
                 match pr with | some p => some p | none => row.progress_json
               completed_at := some t } := by
      unfold complete_job update_job
      rw [hrow]
      exact setJob_self _ _ _
    unfold update_job
    rw [hc]
    exact ⟨_, setJob_self _ _ _, rfl, rfl⟩

/-- Witness for the amended C4: the concrete create → complete → update
sequence on job "j". -/
theorem job_update_behavior_witness :
    (∀ st pr er now, ∃ row2,
      update_job jobsA "j" st pr er false now "j" = some row2 ∧
      row2.status = (match st with | some s => s | none => rowJ.status) ∧
      row2.completed_at = rowJ.completed_at ∧ row2.updated_at = now) ∧
    (∀ s pr t, ∃ rowc,
      complete_job jobsA "j" s pr t "j" = some rowc ∧
      rowc.status = s ∧ rowc.completed_at = some t) ∧
    (∀ s pr t s2 now2, ∃ rowu,
      update_job (complete_job jobsA "j" s pr t) "j" (some s2) none none
        false now2 "j" = some rowu ∧
      rowu.status = s2 ∧ rowu.completed_at = some t) :=
  job_update_behavior jobsA "j" rowJ (by decide)

/-- C5 (cleanup_stale_jobs modelled from the spec; the function is
imported by the CLI but missing from the provided jobs.py): the sweep
marks every non-terminal job whose owner pid is not alive or whose owner
host differs from the current host as `stale` with `completed_at`
stamped, and returns every other job — and absent ids — unchanged. -/
theorem stale_job_cleanup (henv : JobEnv) (jobs : Jobs) (now : Int)
    (job_id : String) :
    (jobs job_id = none → cleanup_stale_jobs henv jobs now job_id = none) ∧
    ∀ row, jobs job_id = some row →
      (terminalStatuses.contains row.status = false →
        (henv.pidAlive row.owner_pid = false ∨
          row.owner_host ≠ some henv.currentHost) →
        ∃ row2, cleanup_stale_jobs henv jobs now job_id = some row2 ∧
          row2.status = "stale" ∧ row2.completed_at = some now) ∧
      (terminalStatuses.contains row.status = true →
        cleanup_stale_jobs henv jobs now job_id = some row) ∧
      (henv.pidAlive row.owner_pid = true →
        row.owner_host = some henv.currentHost →
        cleanup_stale_jobs henv jobs now job_id = some row) := by
  constructor
  · intro h
    simp [cleanup_stale_jobs, h]
  · intro row hrow
    refine ⟨?_, ?_, ?_⟩
    · intro hterm hdead
      have hcond : (!(terminalStatuses.contains row.status)
          && (!(henv.pidAlive row.owner_pid)
              || row.owner_host ≠ some henv.currentHost)) = true := by
        rw [hterm]
        rcases hdead with hpid | hhost
        · rw [hpid]
          rfl
        · simp [hhost]
      refine ⟨{ row with
          status := "stale"
          completed_at := some now
          updated_at := now }, ?_, rfl, rfl⟩
      unfold cleanup_stale_jobs
      rw [hrow]
      dsimp only []
      rw [hcond]
      simp
    · intro hterm
      have hcond : (!(terminalStatuses.contains row.status)
          && (!(henv.pidAlive row.owner_pid)
              || row.owner_host ≠ some henv.currentHost)) = false := by
        rw [hterm]
        rfl
      unfold cleanup_stale_jobs
      rw [hrow]
      dsimp only []
      rw [hcond]
      simp
    · intro hpid hhost
      have hcond : (!(terminalStatuses.contains row.status)
          && (!(henv.pidAlive row.owner_pid)
              || row.owner_host ≠ some henv.currentHost)) = false := by
        rw [hpid, hhost]
        simp
      unfold cleanup_stale_jobs
      rw [hrow]
      dsimp only []
      rw [hcond]
      simp

/-- Witness for C5: under `henvF`, the running job of dead pid "99" is
marked stale with `completed_at` set, and the queued job of live pid "1"
on the same host is untouched. -/
theorem stale_job_cleanup_witness :
    (∃ row2, cleanup_stale_jobs henvF jobsB 5 "a" = some row2 ∧
      row2.status = "stale" ∧ row2.completed_at = some 5) ∧
    ∃ rowj, jobsA "j" = some rowj ∧
      cleanup_stale_jobs henvF jobsA 5 "j" = some rowj := by
  constructor
  · exact ((stale_job_cleanup henvF jobsB 5 "a").2 rowB
      (by decide)).1 (by decide) (Or.inl (by decide))
  · exact ⟨rowJ, by decide,
      ((stale_job_cleanup henvF jobsA 5 "j").2 rowJ
        (by decide)).2.2 (by decide) (by decide)⟩

theorem identifierComponents_eq (fields : List (String × Option String)) :
    identifierComponents fields =
      (IDENTIFIER_COMPONENTS.filter
        (fun key => (truthyOpt (fieldsGet fields key)).isSome)).map
        (fun key =>
          key.toLower ++ "=" ++ (truthyOpt (fieldsGet fields key)).getD "") := by
  unfold identifierComponents
  induction IDENTIFIER_COMPONENTS with
  | nil => rfl
  | cons k l ih =>
      cases hk : truthyOpt (fieldsGet fields k) with
      | none => simp [hk, ih]
      | some value => simp [hk, ih]

/-- C8. Volume identifier construction: when at least one identifier
component is present and truthy, the composite id is the pipe-joined list
of `key=value` entries with lower-cased keys, taken from
{UUID, PARTUUID, PTUUID, WWN, SERIAL, MODEL, VENDOR, FSVER} in that
priority order with missing keys omitted; and the fallback MountInfo has
device equal to the path's filesystem anchor and volume_id equal to that
same anchor (both fields always agreeing). -/
theorem volume_identifier_construction (fields : List (String × Option String))
    (fallback : String) (resolved anchorAttr rootAttr : String)
    (h : ∃ key ∈ IDENTIFIER_COMPONENTS,
      (truthyOpt (fieldsGet fields key)).isSome = true) :
    _build_volume_identifier fields fallback =
      String.intercalate "|" (identifierComponents fields) ∧
    identifierComponents fields =
      (IDENTIFIER_COMPONENTS.filter
        (fun key => (truthyOpt (fieldsGet fields key)).isSome)).map
        (fun key =>
          key.toLower ++ "=" ++ (truthyOpt (fieldsGet fields key)).getD "") ∧
    (∀ findmntFails linuxResult,
      get_mount_info_dispatch false findmntFails linuxResult resolved anchorAttr
        rootAttr = _fallback_mount_info resolved anchorAttr rootAttr) ∧
    (∀ linuxResult,
      get_mount_info_dispatch true true linuxResult resolved anchorAttr
        rootAttr = _fallback_mount_info resolved anchorAttr rootAttr) ∧
    (_fallback_mount_info resolved anchorAttr rootAttr).device =
      (_fallback_mount_info resolved anchorAttr rootAttr).volume_id ∧
    (anchorAttr ≠ "" →
      (_fallback_mount_info resolved anchorAttr rootAttr).device = anchorAttr ∧
      (_fallback_mount_info resolved anchorAttr rootAttr).volume_id = anchorAttr) := by
  have hne : identifierComponents fields ≠ [] := by
    obtain ⟨key, hmem, hsome⟩ := h
    intro hnil
    unfold identifierComponents at hnil
    rw [List.filterMap_eq_nil] at hnil
    have := hnil key hmem
    cases hk : truthyOpt (fieldsGet fields key) with
    | none => rw [hk] at hsome; simp at hsome
    | some value => rw [hk] at this; simp at this
  refine ⟨?_, identifierComponents_eq fields, fun _ _ => rfl, fun _ => rfl,
    rfl, ?_⟩
  · unfold _build_volume_identifier
    simp [hne]
  · intro hanchor
    constructor <;>
      simp [_fallback_mount_info, pyOr_of_truthy rootAttr
        (truthyOpt_eq_some_self hanchor), truthyOpt_eq_some_self hanchor,
        pyOr_of_truthy resolved (truthyOpt_eq_some_self hanchor)]

/-- Witness for C8: a fields dict with UUID and SERIAL present yields the
pipe-joined lower-cased composite; the fallback info for anchor "/"
agrees on device and volume_id. -/
theorem volume_identifier_construction_witness :
    _build_volume_identifier [("UUID", some "AB-12"), ("SERIAL", some "S9")] "fb" =
      String.intercalate "|"
        (identifierComponents [("UUID", some "AB-12"), ("SERIAL", some "S9")]) ∧
    identifierComponents [("UUID", some "AB-12"), ("SERIAL", some "S9")] =
      (IDENTIFIER_COMPONENTS.filter
        (fun key => (truthyOpt (fieldsGet
          [("UUID", some "AB-12"), ("SERIAL", some "S9")] key)).isSome)).map
        (fun key => key.toLower ++ "=" ++
          (truthyOpt (fieldsGet
            [("UUID", some "AB-12"), ("SERIAL", some "S9")] key)).getD "") ∧
    (∀ findmntFails linuxResult,
      get_mount_info_dispatch false findmntFails linuxResult "/home/u" "/" "" =
        _fallback_mount_info "/home/u" "/" "") ∧
    (∀ linuxResult,
      get_mount_info_dispatch true true linuxResult "/home/u" "/" "" =
        _fallback_mount_info "/home/u" "/" "") ∧
    (_fallback_mount_info "/home/u" "/" "").device =
      (_fallback_mount_info "/home/u" "/" "").volume_id ∧
    ("/" ≠ "" →
      (_fallback_mount_info "/home/u" "/" "").device = "/" ∧
      (_fallback_mount_info "/home/u" "/" "").volume_id = "/") :=
  volume_identifier_construction
    [("UUID", some "AB-12"), ("SERIAL", some "S9")] "fb" "/home/u" "/" ""
    ⟨"UUID", by decide, by decide⟩

/-- C9. Backend fallback on watch-descriptor exhaustion: when observer
construction fails with ENOSPC, `DiskWatcher.start` schedules the same
event handler (through which events are appended) on a polling observer
whose timeout is the configured interval when positive and 30 s
otherwise, and the structured `watcher_started` log record carries
backend=polling; the CLI rejects configured intervals below 1 s, and an
accepted configuration always yields a timeout of at least 1 s; any
OSError other than ENOSPC is re-raised. -/
theorem backend_fallback_enospc :
    (∀ pi, diskwatcher_start_backend (.oserror ENOSPC) pi =
      .ok { backend := "polling", pollingTimeout := some (pollingTimeoutFor pi),
            handlerScheduled := true, logBackendField := "polling" }) ∧
    pollingTimeoutFor none = 30 ∧
    (∀ cli cfg r, effectivePollingInterval cli cfg = .ok r →
      1 ≤ pollingTimeoutFor r) ∧
    (∀ e pi, e ≠ ENOSPC → diskwatcher_start_backend (.oserror e) pi = .error e) := by
  refine ⟨?_, rfl, ?_, ?_⟩
  · intro pi
    simp [diskwatcher_start_backend]
  · intro cli cfg r hr
    unfold effectivePollingInterval at hr
    rcases hc : (match cli with | some v => some v | none => cfg) with _ | v
    · rw [hc] at hr
      simp at hr
      rw [← hr]
      decide
    · rw [hc] at hr
      by_cases hv : v < 1
      · simp [hv] at hr
      · simp [hv] at hr
        rw [← hr]
        unfold pollingTimeoutFor
        have hv1 : (1 : Int) ≤ v := by omega
        have hv0 : v > 0 := by omega
        simp [hv0, hv1, show v ≠ 0 by omega]
  · intro e pi he
    simp [diskwatcher_start_backend, he]

/-- Witness for C9: ENOSPC with a configured 7 s interval falls back to
polling at 7 s; an accepted CLI interval of 7 yields a timeout ≥ 1; errno
13 (EACCES) is re-raised. -/
theorem backend_fallback_enospc_witness :
    diskwatcher_start_backend (.oserror ENOSPC) (some 7) =
      .ok { backend := "polling", pollingTimeout := some (pollingTimeoutFor (some 7)),
            handlerScheduled := true, logBackendField := "polling" } ∧
    1 ≤ pollingTimeoutFor (some 7) ∧
    diskwatcher_start_backend (.oserror 13) (some 7) = .error 13 :=
  ⟨backend_fallback_enospc.1 (some 7),
   backend_fallback_enospc.2.2.1 (some 7) none (some 7) rfl,
   backend_fallback_enospc.2.2.2 13 (some 7) (by decide)⟩

end Diskwatcher
